import Mathlib

/-!
Verification of the YerTap parking-prediction front end
(`front-side/src/App.tsx`) against its specification.

The application logic is shallowly embedded:
* JS numbers used in occupancy arithmetic are modelled as `ℚ`
  (all values involved are small exact decimals), `Math.round` as
  Mathlib's `round` (both are `⌊x + 1/2⌋`).
* The trigonometric distance computation is modelled over `ℝ`.
* `Math.random`-driven shuffles are modelled by quantifying over an
  arbitrary shuffle function / an arbitrary permutation of the base list.
* React state updates are modelled as explicit transitions on a
  `SessionState` record.
-/

namespace YerTap

/-- A destination record: `interface Destination { name; lat; lng }`. -/
structure Destination where
  name : String
  lat : ℚ
  lng : ℚ
  deriving DecidableEq, Repr

/-- A ranked parking-lot record: `interface ParkingLot` in the source.
`type` is `"surface"` or `"multistory"`. -/
structure ParkingLot where
  id : String
  name : String
  lat : ℚ
  lng : ℚ
  distance_m : ℤ
  predicted_percent : ℤ
  total_slots : ℕ
  slots : List ℕ
  type : String
  deriving DecidableEq, Repr

/-- One prediction sample: `interface BackendSlotResponse`. -/
structure BackendSlotResponse where
  id : ℤ
  datetime : String
  total_slots : ℕ
  total_occupied : ℕ
  total_empty : ℕ
  deriving DecidableEq, Repr

/-- The notification shown by the app: `{ msg, type: "info" | "warning" }`. -/
structure AlertEvent where
  type : String
  msg : String
  deriving DecidableEq, Repr

/-- Models `parseInt(s)` (radix 10) as used on lot ids: skip leading spaces,
optional sign, then a non-empty run of decimal digits; `none` models `NaN`. -/
def parseIntStr (s : String) : Option ℤ :=
  let t := s.toList.dropWhile (· = ' ')
  let sign : ℤ := if t.head? = some '-' then -1 else 1
  let rest := if t.head? = some '-' ∨ t.head? = some '+' then t.tail else t
  let ds := rest.takeWhile Char.isDigit
  if ds.isEmpty then none
  else some (sign * (ds.foldl (fun acc c => acc * 10 + (c.toNat - 48)) (0 : ℕ) : ℕ))

/-- The base slot sequence built in both `mockFetchParkingLots` and
`updatePrediction`:
`Array(total).fill(0).map((_, i) => (i < occupied ? 1 : 0))`. -/
def baseSlots (total occupied : ℕ) : List ℕ :=
  (List.range total).map (fun i => if i < occupied then 1 else 0)

/-- The visualization truncation applied after shuffling:
`slots.length > 50 ? slots.slice(0, 50) : slots`. -/
def truncateVisual (slots : List ℕ) : List ℕ :=
  if slots.length > 50 then slots.take 50 else slots

/-- Computes `Math.round((total_occupied / total_slots) * 100)` for a sample. -/
def percentOf (bd : BackendSlotResponse) : ℤ :=
  round ((bd.total_occupied : ℚ) / (bd.total_slots : ℚ) * 100)

/-- Models `apiData.find((d) => d.id === parseInt(lot.id))`; a `NaN` from
`parseInt` compares unequal to every `id`, hence no match. -/
def lookupSample (samples : List BackendSlotResponse) (lot : ParkingLot) :
    Option BackendSlotResponse :=
  match parseIntStr lot.id with
  | none => none
  | some n => samples.find? (fun d => d.id == n)

/-- The per-lot body of the `prev.map (lot => ...)` in `updatePrediction`:
on a matching sample the lot is updated in place (percent, capacity,
regenerated visual slots); otherwise it is returned unchanged.  `shuffle`
stands for the `sort(() => Math.random() - 0.5)` pass. -/
def updateLot (shuffle : List ℕ → List ℕ) (samples : List BackendSlotResponse)
    (lot : ParkingLot) : ParkingLot :=
  match lookupSample samples lot with
  | none => lot
  | some bd =>
    { lot with
      predicted_percent := percentOf bd
      total_slots := bd.total_slots
      slots := truncateVisual (shuffle (baseSlots bd.total_slots bd.total_occupied)) }

/-- The full lot-list update performed by `setParkingLots(prev => prev.map ...)`. -/
def applyPredictionsList (shuffle : List ℕ → List ℕ)
    (samples : List BackendSlotResponse) (lots : List ParkingLot) :
    List ParkingLot :=
  lots.map (updateLot shuffle samples)

/-- A sequence of prediction refreshes, each with its own shuffle and samples. -/
def applyMany :
    List ((List ℕ → List ℕ) × List BackendSlotResponse) → List ParkingLot →
    List ParkingLot
  | [], lots => lots
  | (sh, sm) :: rest, lots => applyMany rest (applyPredictionsList sh sm lots)

/-- The alert message `"High demand at ${lot.name} (${percent}%)."`. -/
def warnMsg (lotName : String) (p : ℤ) : String :=
  "High demand at " ++ lotName ++ " (" ++ toString p ++ "%)."

/-- The warning notification set by `setNotification` in `updatePrediction`. -/
def warnEvent (lot : ParkingLot) (p : ℤ) : AlertEvent :=
  { type := "warning", msg := warnMsg lot.name p }

/-- The alert emitted (if any) for one lot during `updatePrediction`:
`(forceId === lot.id || selectedLotId === lot.id) && percent > 90`. -/
def alertOfLot (forceId selId : Option String)
    (samples : List BackendSlotResponse) (lot : ParkingLot) :
    Option AlertEvent :=
  match lookupSample samples lot with
  | none => none
  | some bd =>
    if (forceId = some lot.id ∨ selId = some lot.id) ∧ 90 < percentOf bd then
      some (warnEvent lot (percentOf bd))
    else none

/-- Whether `updatePrediction` treats a lot as selection-relevant:
its id is the forced id passed by `handleLotSelect` or the in-scope
selected id. -/
def relevantLot (forceId selId : Option String) (lot : ParkingLot) : Bool :=
  forceId == some lot.id || selId == some lot.id

/-- All warning alerts emitted by one `updatePrediction` pass over `lots`. -/
def alertsOf (forceId selId : Option String)
    (samples : List BackendSlotResponse) (lots : List ParkingLot) :
    List AlertEvent :=
  lots.filterMap (alertOfLot forceId selId samples)

/-- Outcome of the transport layer in `fetchRealPrediction`: the
`fetch` can reject (`netError`), or deliver a response with an `ok`
flag and a body whose JSON either parses to a sample list (`some`) or
fails to parse (`none`). -/
inductive TransportResult where
  | netError : TransportResult
  | response (ok : Bool) (body : Option (List BackendSlotResponse)) : TransportResult
  deriving DecidableEq, Repr

/-- The fixed fallback sample list returned by `fetchRealPrediction`
when the request fails; `datetime` echoes the requested arrival date. -/
def fallbackSamples (arrivalDate : String) : List BackendSlotResponse :=
  [{ id := 1, datetime := arrivalDate, total_slots := 120,
     total_occupied := 43, total_empty := 77 },
   { id := 2, datetime := arrivalDate, total_slots := 30,
     total_occupied := 13, total_empty := 17 }]

/-- Models `fetchRealPrediction`: a successful (`ok`) response with parsable
JSON is returned as-is; a network error, a non-2xx status (the thrown
`API Error` is caught by the same `catch`) or a JSON parse failure all
yield the fallback list. -/
def fetchRealPrediction (arrivalDate : String) :
    TransportResult → List BackendSlotResponse
  | .netError => fallbackSamples arrivalDate
  | .response ok body =>
    if ok then
      match body with
      | some samples => samples
      | none => fallbackSamples arrivalDate
    else fallbackSamples arrivalDate

/-- The transport outcomes that count as a failure: network error,
non-success status, or malformed (unparsable) payload. -/
def isTransportFailure : TransportResult → Prop
  | .netError => True
  | .response ok body => ok = false ∨ body = none

instance : DecidablePred isTransportFailure := by
  intro t
  cases t <;> simp [isTransportFailure] <;> infer_instance

/-- The fields of a sample the fallback contract fixes (everything but
the echoed `datetime`). -/
def sampleCore (bd : BackendSlotResponse) : ℤ × ℕ × ℕ × ℕ :=
  (bd.id, bd.total_slots, bd.total_occupied, bd.total_empty)

/-- Stable insertion of a lot into a distance-sorted list; models the
comparator `(a, b) => a.distance_m - b.distance_m` of the stable
`Array.prototype.sort`. -/
def insertByDist (a : ParkingLot) : List ParkingLot → List ParkingLot
  | [] => [a]
  | b :: bs =>
    if a.distance_m ≤ b.distance_m then a :: b :: bs else b :: insertByDist a bs

/-- Stable sort by `distance_m`, modelling `.sort((a, b) => a.distance_m - b.distance_m)`. -/
def sortByDist : List ParkingLot → List ParkingLot
  | [] => []
  | a :: rest => insertByDist a (sortByDist rest)

/-- Models `mockFetchParkingLots(lat, lng)` after the simulated delay: the two
hardcoded candidates "Park A" and "Park B" at fixed offsets from the
destination, with seed occupancies 43/120 and 13/30, sorted by distance.
`dist` abstracts `getDistanceMeters` (the app instantiates it with the
real-valued haversine below); `shuffle` abstracts the random
`sort(() => Math.random() - 0.5)` pass. -/
def seedLots (dist : ℚ → ℚ → ℚ → ℚ → ℤ) (shuffle : List ℕ → List ℕ)
    (lat lng : ℚ) : List ParkingLot :=
  sortByDist
    [{ id := "1", name := "Park A",
       lat := lat + 15/10000, lng := lng - 1/1000,
       distance_m := dist lat lng (lat + 15/10000) (lng - 1/1000),
       predicted_percent := round (((43 : ℚ) / 120) * 100),
       total_slots := 120,
       slots := truncateVisual (shuffle (baseSlots 120 43)),
       type := "surface" },
     { id := "2", name := "Park B",
       lat := lat - 1/1000, lng := lng + 2/1000,
       distance_m := dist lat lng (lat - 1/1000) (lng + 2/1000),
       predicted_percent := round (((13 : ℚ) / 30) * 100),
       total_slots := 30,
       slots := truncateVisual (shuffle (baseSlots 30 13)),
       type := "multistory" }]

/-- The React state owned by `ParkingApp` that the session transitions touch. -/
structure SessionState where
  destination : Option Destination
  arrivalTime : String
  parkingLots : List ParkingLot
  selectedLotId : Option String
  isLoading : Bool
  currentAlert : Option AlertEvent
  deriving DecidableEq, Repr

/-- The synchronous phase of `selectDestination(dest)` (including the
part of `fetchLots` that runs before its `await`): destination set,
loading flag raised, lot list cleared, selection cleared.  The
notification and arrival time are not touched. -/
def selectDestinationStart (dest : Destination) (s : SessionState) : SessionState :=
  { s with
    destination := some dest
    isLoading := true
    parkingLots := []
    selectedLotId := none }

/-- Completion of `fetchLots`: the awaited `mockFetchParkingLots` result
is stored and the loading flag cleared. -/
def fetchLotsComplete (seeded : List ParkingLot) (s : SessionState) : SessionState :=
  { s with parkingLots := seeded, isLoading := false }

/-- The asynchronous collaborator calls a handler can issue. -/
inductive AppCall where
  | seedCandidates (lat lng : ℚ) : AppCall
  | predictionFetch (date : String) : AppCall
  deriving DecidableEq, Repr

/-- The collaborator calls issued by `selectDestination(dest)`: it calls
`fetchLots(dest)` (which awaits `mockFetchParkingLots(dest.lat, dest.lng)`)
and nothing else — in particular no prediction fetch. -/
def selectDestinationCalls (dest : Destination) : List AppCall :=
  [AppCall.seedCandidates dest.lat dest.lng]

/-- JavaScript's `Math.atan2` on reals (the quadrant-aware arctangent). -/
noncomputable def atan2 (y x : ℝ) : ℝ :=
  if 0 < x then Real.arctan (y / x)
  else if x < 0 ∧ 0 ≤ y then Real.arctan (y / x) + Real.pi
  else if x < 0 then Real.arctan (y / x) - Real.pi
  else if 0 < y then Real.pi / 2
  else if y < 0 then -(Real.pi / 2)
  else 0

/-- Models `getDistanceMeters(lat1, lon1, lat2, lon2)` exactly as written in the
source, real-valued: note that the `a` term multiplies `cos φ1` by
`cos φ1` (the source computes `φ2` but never uses it). -/
noncomputable def getDistanceMeters (lat1 lon1 lat2 lon2 : ℝ) : ℤ :=
  let R : ℝ := 6371000
  let phi1 := lat1 * Real.pi / 180
  let phi2 := lat2 * Real.pi / 180
  let dphi := (lat2 - lat1) * Real.pi / 180
  let dlam := (lon2 - lon1) * Real.pi / 180
  let a := Real.sin (dphi / 2) * Real.sin (dphi / 2) +
    Real.cos phi1 * Real.cos phi1 * Real.sin (dlam / 2) * Real.sin (dlam / 2)
  let c := 2 * atan2 (Real.sqrt a) (Real.sqrt (1 - a))
  round (R * c)

/-! ### Helper lemmas -/

theorem updateLot_id (shuffle : List ℕ → List ℕ)
    (samples : List BackendSlotResponse) (lot : ParkingLot) :
    (updateLot shuffle samples lot).id = lot.id := by
  unfold updateLot
  cases lookupSample samples lot <;> rfl

theorem applyPredictionsList_map_id (shuffle : List ℕ → List ℕ)
    (samples : List BackendSlotResponse) (lots : List ParkingLot) :
    (applyPredictionsList shuffle samples lots).map (fun l => l.id) =
      lots.map (fun l => l.id) := by
  unfold applyPredictionsList
  induction lots with
  | nil => rfl
  | cons x xs ih => simp [updateLot_id, ih]

/-- A transport failure always produces the fallback list. -/
theorem fetchRealPrediction_of_failure (d : String) (t : TransportResult)
    (h : isTransportFailure t) :
    fetchRealPrediction d t = fallbackSamples d := by
  cases t with
  | netError => rfl
  | response ok body =>
    cases ok <;> cases body <;>
      simp_all [fetchRealPrediction, isTransportFailure]

/-! ### C7 — prediction refreshes never reorder the lot list -/

/-- C7: applying predictions never reorders the lot list: after any
number of prediction refreshes (each with its own shuffle and sample
set), the resulting list has the same lot identifiers at the same
positions as before. -/
theorem refresh_preserves_order
    (rs : List ((List ℕ → List ℕ) × List BackendSlotResponse))
    (lots : List ParkingLot) :
    (applyMany rs lots).map (fun l => l.id) = lots.map (fun l => l.id) := by
  induction rs generalizing lots with
  | nil => rfl
  | cons r rest ih =>
    obtain ⟨sh, sm⟩ := r
    calc (applyMany ((sh, sm) :: rest) lots).map (fun l => l.id)
        = (applyMany rest (applyPredictionsList sh sm lots)).map (fun l => l.id) := rfl
      _ = (applyPredictionsList sh sm lots).map (fun l => l.id) := ih _
      _ = lots.map (fun l => l.id) := applyPredictionsList_map_id sh sm lots

/-! ### C8 — a lot matching no sample is left entirely unchanged -/

/-- C8: a lot whose identifier matches no sample in the prediction
response is left entirely unchanged by the refresh (the very same
record, every field untouched), and it passes through the list update
in place. -/
theorem unmatched_lot_unchanged (shuffle : List ℕ → List ℕ)
    (samples : List BackendSlotResponse) (lot : ParkingLot)
    (h : lookupSample samples lot = none) :
    updateLot shuffle samples lot = lot ∧
    ∀ lots : List ParkingLot,
      applyPredictionsList shuffle samples (lot :: lots) =
        lot :: applyPredictionsList shuffle samples lots := by
  constructor
  · unfold updateLot
    rw [h]
  · intro lots
    unfold applyPredictionsList
    rw [List.map_cons]
    unfold updateLot
    rw [h]

/-- Witness for C8 at a concrete input: a lot with id `"9"` and a sample
list containing only id `1`. -/
theorem unmatched_lot_unchanged_witness :
    updateLot id [{ id := 1, datetime := "t", total_slots := 10,
                    total_occupied := 5, total_empty := 5 }]
      { id := "9", name := "Park X", lat := 40, lng := 49, distance_m := 7,
        predicted_percent := 50, total_slots := 10, slots := [1, 0],
        type := "surface" } =
      { id := "9", name := "Park X", lat := 40, lng := 49, distance_m := 7,
        predicted_percent := 50, total_slots := 10, slots := [1, 0],
        type := "surface" } :=
  (unmatched_lot_unchanged id _ _ (by rfl)).1

/-! ### C9 — a matched lot only changes percent, capacity and slots -/

/-- C9: when a sample matches a lot, the refresh rewrites only
`predicted_percent`, `total_slots` and the `slots` visualization; the
identifier, name, coordinates, distance and facility type all keep
their previous values, so the lot's identity persists. -/
theorem matched_lot_frame (shuffle : List ℕ → List ℕ)
    (samples : List BackendSlotResponse) (lot : ParkingLot)
    (bd : BackendSlotResponse) (h : lookupSample samples lot = some bd) :
    updateLot shuffle samples lot =
      { lot with
        predicted_percent := percentOf bd
        total_slots := bd.total_slots
        slots := truncateVisual (shuffle (baseSlots bd.total_slots bd.total_occupied)) } ∧
    (updateLot shuffle samples lot).id = lot.id ∧
    (updateLot shuffle samples lot).name = lot.name ∧
    (updateLot shuffle samples lot).lat = lot.lat ∧
    (updateLot shuffle samples lot).lng = lot.lng ∧
    (updateLot shuffle samples lot).distance_m = lot.distance_m ∧
    (updateLot shuffle samples lot).type = lot.type := by
  have he : updateLot shuffle samples lot =
      { lot with
        predicted_percent := percentOf bd
        total_slots := bd.total_slots
        slots := truncateVisual (shuffle (baseSlots bd.total_slots bd.total_occupied)) } := by
    unfold updateLot
    rw [h]
  exact ⟨he, by rw [he], by rw [he], by rw [he], by rw [he], by rw [he], by rw [he]⟩

/-- Witness for C9 at a concrete input: the sample with id `1` matches
the lot with id `"1"` and rewrites exactly the three mutable fields. -/
theorem matched_lot_frame_witness :
    updateLot id [{ id := 1, datetime := "t", total_slots := 4,
                    total_occupied := 2, total_empty := 2 }]
      { id := "1", name := "Park A", lat := 40, lng := 49, distance_m := 7,
        predicted_percent := 36, total_slots := 120, slots := [1, 0],
        type := "surface" } =
      { id := "1", name := "Park A", lat := 40, lng := 49, distance_m := 7,
        predicted_percent := percentOf { id := 1, datetime := "t", total_slots := 4,
                                         total_occupied := 2, total_empty := 2 },
        total_slots := 4, slots := [1, 1, 0, 0], type := "surface" } := by
  have h := (matched_lot_frame id
    [{ id := 1, datetime := "t", total_slots := 4,
       total_occupied := 2, total_empty := 2 }]
    { id := "1", name := "Park A", lat := 40, lng := 49, distance_m := 7,
      predicted_percent := 36, total_slots := 120, slots := [1, 0],
      type := "surface" } _ (by rfl)).1
  rw [h]
  rfl

/-! ### C2 — failing transport always yields the fixed fallback set -/

/-- C2: whenever the transport fails (network error, non-success status
or malformed JSON), `fetchRealPrediction` returns exactly the fixed
two-sample fallback set (id 1: 120/43/77, id 2: 30/13/17), and any two
failing calls agree on every contract-fixed field. -/
theorem fallback_on_failure (d d1 d2 : String) (t t1 t2 : TransportResult)
    (h : isTransportFailure t) (h1 : isTransportFailure t1)
    (h2 : isTransportFailure t2) :
    fetchRealPrediction d t = fallbackSamples d ∧
    (fetchRealPrediction d t).map sampleCore =
      [(1, 120, 43, 77), (2, 30, 13, 17)] ∧
    (fetchRealPrediction d1 t1).map sampleCore =
      (fetchRealPrediction d2 t2).map sampleCore := by
  refine ⟨fetchRealPrediction_of_failure d t h, ?_, ?_⟩
  · rw [fetchRealPrediction_of_failure d t h]
    rfl
  · rw [fetchRealPrediction_of_failure d1 t1 h1,
      fetchRealPrediction_of_failure d2 t2 h2]
    rfl

/-- Witness for C2: a network error and a 500-status response, with
different arrival dates, both yield the fixed fallback fields. -/
theorem fallback_on_failure_witness :
    fetchRealPrediction ("2026-03-15 14:30") TransportResult.netError =
      fallbackSamples ("2026-03-15 14:30") ∧
    (fetchRealPrediction ("2026-03-15 14:30") TransportResult.netError).map sampleCore =
      [(1, 120, 43, 77), (2, 30, 13, 17)] ∧
    (fetchRealPrediction ("2026-03-15 14:30") TransportResult.netError).map sampleCore =
      (fetchRealPrediction ("2026-03-16 09:00") (TransportResult.response false none)).map
        sampleCore :=
  fallback_on_failure ("2026-03-15 14:30") ("2026-03-15 14:30") ("2026-03-16 09:00")
    TransportResult.netError TransportResult.netError
    (TransportResult.response false none)
    trivial trivial (Or.inl rfl)

/-! ### Sorting and seeding lemmas -/

theorem insertByDist_perm (a : ParkingLot) (l : List ParkingLot) :
    (insertByDist a l).Perm (a :: l) := by
  induction l with
  | nil => exact List.Perm.refl _
  | cons b bs ih =>
    unfold insertByDist
    split
    · exact List.Perm.refl _
    · exact (ih.cons b).trans (List.Perm.swap a b bs)

theorem sortByDist_perm (l : List ParkingLot) : (sortByDist l).Perm l := by
  induction l with
  | nil => exact List.Perm.refl _
  | cons a rest ih =>
    exact (insertByDist_perm a (sortByDist rest)).trans (ih.cons a)

/-- Every seeded lot is one of the two hardcoded candidates. -/
theorem mem_seedLots (dist : ℚ → ℚ → ℚ → ℚ → ℤ) (shuffle : List ℕ → List ℕ)
    (lat lng : ℚ) (L : ParkingLot) (h : L ∈ seedLots dist shuffle lat lng) :
    L = { id := "1", name := "Park A",
          lat := lat + 15/10000, lng := lng - 1/1000,
          distance_m := dist lat lng (lat + 15/10000) (lng - 1/1000),
          predicted_percent := round (((43 : ℚ) / 120) * 100),
          total_slots := 120,
          slots := truncateVisual (shuffle (baseSlots 120 43)),
          type := "surface" } ∨
    L = { id := "2", name := "Park B",
          lat := lat - 1/1000, lng := lng + 2/1000,
          distance_m := dist lat lng (lat - 1/1000) (lng + 2/1000),
          predicted_percent := round (((13 : ℚ) / 30) * 100),
          total_slots := 30,
          slots := truncateVisual (shuffle (baseSlots 30 13)),
          type := "multistory" } := by
  unfold seedLots at h
  rw [(sortByDist_perm _).mem_iff] at h
  simpa using h

/-- Park A's seed percentage: `round ((43/120) * 100) = 36`. -/
theorem percent_43_120 : round (((43 : ℚ) / 120) * 100) = 36 := by
  rw [round_eq]
  norm_num

/-- Park B's seed percentage: `round ((13/30) * 100) = 43`. -/
theorem percent_13_30 : round (((13 : ℚ) / 30) * 100) = 43 := by
  rw [round_eq]
  norm_num

/-! ### C5 — what destination selection actually does -/

/-- Concrete pre-state for the destination-selection counterexample:
an alert is on screen when the user picks a destination. -/
def cexAlert : AlertEvent := { type := "warning", msg := "High demand at Park A (95%)." }

def cexPreState : SessionState :=
  { destination := none
    arrivalTime := "2026-03-15T14:30"
    parkingLots := []
    selectedLotId := some ("1")
    isLoading := false
    currentAlert := some cexAlert }

def cexDest : Destination :=
  { name := "Nizami Street, Baku", lat := 40375/1000, lng := 49836/1000 }

/-- C5 counterexample: selecting a destination leaves the current alert
in place (it is not cleared), and the handler's collaborator calls are
exactly the candidate seeding — no prediction fetch is invoked. -/
theorem selection_reset_counterexample :
    (selectDestinationStart cexDest cexPreState).currentAlert = some cexAlert ∧
    selectDestinationCalls cexDest =
      [AppCall.seedCandidates (40375/1000) (49836/1000)] :=
  ⟨rfl, rfl⟩

/-- C5 amended: when a destination is selected the session clears the
lot list, clears the lot selection, raises the loading flag and seeds
the candidate lots once seeding completes; the current alert and the
arrival time are left untouched, and no prediction refresh is invoked
(the only collaborator call is the candidate seeding). -/
theorem selection_reset_amended (dest : Destination) (s : SessionState)
    (dist : ℚ → ℚ → ℚ → ℚ → ℤ) (shuffle : List ℕ → List ℕ) :
    (selectDestinationStart dest s).parkingLots = [] ∧
    (selectDestinationStart dest s).selectedLotId = none ∧
    (selectDestinationStart dest s).destination = some dest ∧
    (selectDestinationStart dest s).isLoading = true ∧
    (selectDestinationStart dest s).currentAlert = s.currentAlert ∧
    (selectDestinationStart dest s).arrivalTime = s.arrivalTime ∧
    (fetchLotsComplete (seedLots dist shuffle dest.lat dest.lng)
        (selectDestinationStart dest s)).parkingLots =
      seedLots dist shuffle dest.lat dest.lng ∧
    (fetchLotsComplete (seedLots dist shuffle dest.lat dest.lng)
        (selectDestinationStart dest s)).currentAlert = s.currentAlert ∧
    selectDestinationCalls dest = [AppCall.seedCandidates dest.lat dest.lng] :=
  ⟨rfl, rfl, rfl, rfl, rfl, rfl, rfl, rfl, rfl⟩

/-! ### C6 — the percentage formula -/

/-- The code's `(occ / total) * 100` agrees with the spec's
`100 * occ / total`. -/
theorem percentOf_eq_round (bd : BackendSlotResponse) :
    percentOf bd = round (100 * (bd.total_occupied : ℚ) / (bd.total_slots : ℚ)) := by
  unfold percentOf
  congr 1
  ring

/-- Shared fixture: the Park A lot record as first painted. -/
def lotFixtureA : ParkingLot :=
  { id := "1", name := "Park A", lat := 40, lng := 49, distance_m := 50,
    predicted_percent := 36, total_slots := 120, slots := [], type := "surface" }

/-- Shared fixture: the fallback sample for Park A. -/
def sampleFixtureA : BackendSlotResponse :=
  { id := 1, datetime := "2026-03-15 14:30", total_slots := 120,
    total_occupied := 43, total_empty := 77 }

/-- C6: whenever a sample is applied to a lot, the new
`predicted_percent` is `round (100 * occupied / total_slots)`; every
seeded lot's percentage is the same formula at its seed occupancy
(43/120 for Park A, 13/30 for Park B); and in particular applying the
sample `total_slots = 120, occupied = 43` yields 36. -/
theorem percent_rounding (shuffle sh2 : List ℕ → List ℕ)
    (samples : List BackendSlotResponse) (lot : ParkingLot)
    (bd : BackendSlotResponse) (dist : ℚ → ℚ → ℚ → ℚ → ℤ) (lat lng : ℚ)
    (h : lookupSample samples lot = some bd) :
    (updateLot shuffle samples lot).predicted_percent =
      round (100 * (bd.total_occupied : ℚ) / (bd.total_slots : ℚ)) ∧
    (∀ L ∈ seedLots dist sh2 lat lng,
      (L.id = "1" → L.predicted_percent = round (100 * (43 : ℚ) / 120)) ∧
      (L.id = "2" → L.predicted_percent = round (100 * (13 : ℚ) / 30))) ∧
    (updateLot shuffle [sampleFixtureA] lotFixtureA).predicted_percent = 36 := by
  refine ⟨?_, ?_, ?_⟩
  · have he : updateLot shuffle samples lot =
        { lot with
          predicted_percent := percentOf bd
          total_slots := bd.total_slots
          slots := truncateVisual (shuffle (baseSlots bd.total_slots bd.total_occupied)) } := by
      unfold updateLot
      rw [h]
    rw [he]
    exact percentOf_eq_round bd
  · intro L hL
    rcases mem_seedLots dist sh2 lat lng L hL with h1 | h2
    · subst h1
      refine ⟨fun _ => ?_, fun hid => by simp at hid⟩
      show round (((43 : ℚ) / 120) * 100) = round (100 * (43 : ℚ) / 120)
      congr 1
      ring
    · subst h2
      refine ⟨fun hid => by simp at hid, fun _ => ?_⟩
      show round (((13 : ℚ) / 30) * 100) = round (100 * (13 : ℚ) / 30)
      congr 1
      ring
  · show percentOf sampleFixtureA = 36
    unfold percentOf sampleFixtureA
    rw [round_eq]
    norm_num

/-- Witness for C6: the fallback Park A sample applied to the seeded
Park A record gives exactly 36 percent. -/
theorem percent_rounding_witness :
    (updateLot id [sampleFixtureA] lotFixtureA).predicted_percent =
      round (100 * (43 : ℚ) / 120) ∧
    (updateLot id [sampleFixtureA] lotFixtureA).predicted_percent = 36 := by
  have h := percent_rounding id id [sampleFixtureA] lotFixtureA sampleFixtureA
    (fun _ _ _ _ => 0) 40 49 (by rfl)
  exact ⟨h.1, h.2.2⟩

/-! ### C4 — the slot synthesizer invariant -/

theorem length_baseSlots (total occ : ℕ) : (baseSlots total occ).length = total := by
  simp [baseSlots]

theorem mem_baseSlots (total occ x : ℕ) (h : x ∈ baseSlots total occ) :
    x = 0 ∨ x = 1 := by
  unfold baseSlots at h
  simp only [List.mem_map, List.mem_range] at h
  obtain ⟨i, -, hx⟩ := h
  by_cases hi : i < occ
  · right
    rw [← hx, if_pos hi]
  · left
    rw [← hx, if_neg hi]

theorem count_one_baseSlots (total occ : ℕ) :
    (baseSlots total occ).count 1 = min occ total := by
  induction total with
  | zero => simp [baseSlots]
  | succ n ih =>
    unfold baseSlots at ih ⊢
    rw [List.range_succ, List.map_append, List.count_append, ih]
    by_cases h : n < occ
    · simp only [List.map_cons, List.map_nil, if_pos h]
      simp only [List.count_singleton]
      norm_num
      omega
    · simp only [List.map_cons, List.map_nil, if_neg h]
      simp only [List.count_singleton]
      norm_num
      omega

/-- C4: for any capacity `total ≥ 1` and occupancy `occ ≤ total`, and
whatever permutation the random shuffle produced, the synthesized
visual sequence has length `min total 50`, holds only 0/1 entries,
carries exactly `occ` ones when `total ≤ 50` (all free for `occ = 0`,
all occupied for `occ = total`), and at most `min occ 50` ones when
`total > 50`. -/
theorem slot_invariant (total occ : ℕ) (shuffled : List ℕ)
    (h1 : 1 ≤ total) (h2 : occ ≤ total)
    (hp : shuffled.Perm (baseSlots total occ)) :
    (truncateVisual shuffled).length = min total 50 ∧
    (∀ x ∈ truncateVisual shuffled, x = 0 ∨ x = 1) ∧
    (total ≤ 50 → (truncateVisual shuffled).count 1 = occ) ∧
    (total ≤ 50 → occ = 0 → ∀ x ∈ truncateVisual shuffled, x = 0) ∧
    (total ≤ 50 → occ = total → ∀ x ∈ truncateVisual shuffled, x = 1) ∧
    (50 < total → (truncateVisual shuffled).count 1 ≤ min occ 50) := by
  have hlen : shuffled.length = total := by
    rw [hp.length_eq]
    exact length_baseSlots total occ
  have hcount : shuffled.count 1 = min occ total := by
    rw [hp.count_eq 1]
    exact count_one_baseSlots total occ
  have hmem : ∀ x ∈ shuffled, x = 0 ∨ x = 1 := fun x hx =>
    mem_baseSlots total occ x (hp.mem_iff.mp hx)
  by_cases hbig : 50 < total
  · have htr : truncateVisual shuffled = shuffled.take 50 := by
      unfold truncateVisual
      rw [if_pos]
      omega
    refine ⟨?_, ?_, ?_, ?_, ?_, ?_⟩
    · rw [htr, List.length_take, hlen]
      omega
    · intro x hx
      rw [htr] at hx
      exact hmem x (List.take_subset 50 shuffled hx)
    · intro hle
      exact absurd hle (by omega)
    · intro hle
      exact absurd hle (by omega)
    · intro hle
      exact absurd hle (by omega)
    · intro _
      rw [htr]
      have hc1 : (shuffled.take 50).count 1 ≤ shuffled.count 1 :=
        (List.take_sublist 50 shuffled).count_le 1
      have hc2 : (shuffled.take 50).count 1 ≤ (shuffled.take 50).length :=
        List.count_le_length 1 _
      rw [List.length_take, hlen] at hc2
      omega
  · have htr : truncateVisual shuffled = shuffled := by
      unfold truncateVisual
      rw [if_neg]
      omega
    refine ⟨?_, ?_, ?_, ?_, ?_, ?_⟩
    · rw [htr, hlen]
      omega
    · intro x hx
      rw [htr] at hx
      exact hmem x hx
    · intro _
      rw [htr, hcount]
      omega
    · intro _ h0 x hx
      rw [htr] at hx
      rcases hmem x hx with hx0 | hx1
      · exact hx0
      · exfalso
        have hnone : (1 : ℕ) ∉ shuffled := List.count_eq_zero.mp (by omega)
        rw [hx1] at hx
        exact hnone hx
    · intro _ hocc x hx
      rw [htr] at hx
      have hall : ∀ b ∈ shuffled, 1 = b :=
        List.count_eq_length.mp (by omega)
      exact (hall x hx).symm
    · intro hgt
      exact absurd hgt (by omega)

/-- Witness for C4: capacity 3, occupancy 2, shuffled sequence `[0, 1, 1]`. -/
theorem slot_invariant_witness :
    (truncateVisual [0, 1, 1]).length = min 3 50 ∧
    (truncateVisual [0, 1, 1]).count 1 = 2 := by
  have h := slot_invariant 3 2 [0, 1, 1] (by decide) (by decide) (by decide)
  exact ⟨h.1, h.2.2.1 (by decide)⟩

/-! ### C1 — the high-demand alert -/

/-- A ratio of at most 9/10 always rounds to a percentage of at most 90,
so it can never pass the `percent > 90` test. -/
theorem percentOf_le_of_ratio_le (bd : BackendSlotResponse)
    (h : (bd.total_occupied : ℚ) / (bd.total_slots : ℚ) ≤ 9/10) :
    percentOf bd ≤ 90 := by
  unfold percentOf
  have h100 : (bd.total_occupied : ℚ) / (bd.total_slots : ℚ) * 100 ≤ 90 := by
    nlinarith
  have h90 : round ((90 : ℚ)) = 90 := by
    rw [show ((90 : ℚ)) = ((90 : ℤ) : ℚ) by norm_num, round_intCast]
  calc round ((bd.total_occupied : ℚ) / (bd.total_slots : ℚ) * 100)
      ≤ round ((90 : ℚ)) := by
        rw [round_eq, round_eq]
        exact Int.floor_le_floor (by linarith)
    _ = 90 := h90

theorem alertOfLot_none_of_not_relevant (forceId selId : Option String)
    (samples : List BackendSlotResponse) (lot : ParkingLot)
    (h : relevantLot forceId selId lot = false) :
    alertOfLot forceId selId samples lot = none := by
  unfold relevantLot at h
  simp only [Bool.or_eq_false_iff, beq_iff_eq] at h
  unfold alertOfLot
  cases hl : lookupSample samples lot with
  | none => rfl
  | some bd =>
    dsimp only
    rw [if_neg]
    rintro ⟨hsel, -⟩
    rcases hsel with h1 | h2
    · simp [h1] at h
    · simp [h2] at h

theorem alertOfLot_none_of_low (forceId selId : Option String)
    (samples : List BackendSlotResponse) (lot : ParkingLot)
    (bd : BackendSlotResponse) (hl : lookupSample samples lot = some bd)
    (hp : percentOf bd ≤ 90) :
    alertOfLot forceId selId samples lot = none := by
  unfold alertOfLot
  rw [hl]
  dsimp only
  rw [if_neg]
  rintro ⟨-, hgt⟩
  omega

theorem alertOfLot_some (forceId selId : Option String)
    (samples : List BackendSlotResponse) (lot : ParkingLot)
    (bd : BackendSlotResponse) (hrel : relevantLot forceId selId lot = true)
    (hl : lookupSample samples lot = some bd) (hp : 90 < percentOf bd) :
    alertOfLot forceId selId samples lot = some (warnEvent lot (percentOf bd)) := by
  unfold relevantLot at hrel
  simp only [Bool.or_eq_true, beq_iff_eq] at hrel
  unfold alertOfLot
  rw [hl]
  dsimp only
  rw [if_pos]
  exact ⟨hrel, hp⟩

/-- C1 amended: during one `updatePrediction` pass, a lot that is not
selection-relevant (neither the forced id from `handleLotSelect` nor
the in-scope selected id) never produces an alert; a selection-relevant
lot whose sample keeps the ratio at or below 0.90 produces none (its
rounded percentage cannot exceed 90); and when exactly one lot in the
list is selection-relevant and its sample's rounded percentage
`round (100 * occupied / total_slots)` exceeds 90, the pass produces
exactly one warning alert, naming that lot and that percentage. -/
theorem alert_threshold (forceId selId : Option String)
    (samples : List BackendSlotResponse) (lots : List ParkingLot) :
    (∀ lot ∈ lots, relevantLot forceId selId lot = false →
      alertOfLot forceId selId samples lot = none) ∧
    (∀ lot ∈ lots, ∀ bd, lookupSample samples lot = some bd →
      (bd.total_occupied : ℚ) / (bd.total_slots : ℚ) ≤ 9/10 →
      alertOfLot forceId selId samples lot = none) ∧
    (∀ lot bd, lots.filter (relevantLot forceId selId) = [lot] →
      lookupSample samples lot = some bd → 90 < percentOf bd →
      alertsOf forceId selId samples lots = [warnEvent lot (percentOf bd)]) := by
  refine ⟨?_, ?_, ?_⟩
  · intro lot _ h
    exact alertOfLot_none_of_not_relevant forceId selId samples lot h
  · intro lot _ bd hl hr
    exact alertOfLot_none_of_low forceId selId samples lot bd hl
      (percentOf_le_of_ratio_le bd hr)
  · intro lot bd hf hl hp
    unfold alertsOf
    induction lots with
    | nil => simp at hf
    | cons x xs ih =>
      rw [List.filterMap_cons]
      cases hrel : relevantLot forceId selId x with
      | false =>
        rw [alertOfLot_none_of_not_relevant forceId selId samples x hrel]
        refine ih ?_
        rwa [List.filter_cons_of_neg (by simp [hrel])] at hf
      | true =>
        rw [List.filter_cons_of_pos hrel] at hf
        have hx : x = lot := (List.cons_eq_cons.mp hf).1
        have hrest : xs.filter (relevantLot forceId selId) = [] :=
          (List.cons_eq_cons.mp hf).2
        subst hx
        rw [alertOfLot_some forceId selId samples x bd hrel hl hp]
        have hnone : xs.filterMap (alertOfLot forceId selId samples) = [] := by
          rw [List.filterMap_eq_nil_iff]
          intro a ha
          refine alertOfLot_none_of_not_relevant forceId selId samples a ?_
          have := List.filter_eq_nil_iff.mp hrest a ha
          simpa using this
        rw [hnone]

/-- The refresh sample used in the C1 counterexample: 904 of 1000 slots
occupied, i.e. a ratio of 0.904 > 0.90, yet a rounded percentage of 90. -/
def cexSample : BackendSlotResponse :=
  { id := 1, datetime := "2026-03-15 14:30", total_slots := 1000,
    total_occupied := 904, total_empty := 96 }

/-- C1 counterexample: lot "1" is the currently selected lot of a
refresh and its sample has `occupied/total_slots = 0.904 > 0.90`, yet
the pass emits no alert at all (the code tests the rounded percentage,
`round (90.4) = 90`, against `> 90`), contradicting the claim that such
a sample produces exactly one AlertEvent. -/
theorem alert_threshold_counterexample :
    (9 : ℚ)/10 < (cexSample.total_occupied : ℚ) / (cexSample.total_slots : ℚ) ∧
    alertsOf none (some ("1")) [cexSample] [lotFixtureA] = [] := by
  constructor
  · show (9 : ℚ)/10 < ((904 : ℕ) : ℚ) / ((1000 : ℕ) : ℚ)
    norm_num
  · have hp : percentOf cexSample = 90 := by
      show round (((904 : ℕ) : ℚ) / ((1000 : ℕ) : ℚ) * 100) = 90
      rw [round_eq]
      norm_num
    have hal : alertOfLot none (some ("1")) [cexSample] lotFixtureA = none := by
      unfold alertOfLot
      rw [show lookupSample [cexSample] lotFixtureA = some cexSample from rfl]
      dsimp only
      rw [if_neg]
      rintro ⟨-, hgt⟩
      rw [hp] at hgt
      exact lt_irrefl 90 hgt
    unfold alertsOf
    rw [List.filterMap_cons, hal]
    rfl

/-- The sample used in the C1 witness: 109 of 120 occupied, which rounds
to 91 percent and passes the threshold. -/
def wSample91 : BackendSlotResponse :=
  { id := 1, datetime := "2026-03-15 14:30", total_slots := 120,
    total_occupied := 109, total_empty := 11 }

/-- Witness for C1 (amended): selecting lot "1" and receiving the 91%
sample produces exactly one warning alert naming Park A and 91. -/
theorem alert_threshold_witness :
    alertsOf (some ("1")) none [wSample91] [lotFixtureA] =
      [{ type := "warning", msg := "High demand at Park A (91%)." }] := by
  have hp : percentOf wSample91 = 91 := by
    show round (((109 : ℕ) : ℚ) / ((120 : ℕ) : ℚ) * 100) = 91
    rw [round_eq]
    norm_num
  have h := (alert_threshold (some ("1")) none [wSample91] [lotFixtureA]).2.2
    lotFixtureA wSample91 (by rfl) (by rfl) (by rw [hp]; norm_num)
  rw [h, hp]
  rfl

/-! ### C10 — a degraded-mode refresh keeps the first-paint numbers -/

/-- The aggregate figures of a lot the UI displays: id, capacity,
predicted percentage. -/
def lotFigures (l : ParkingLot) : String × ℕ × ℤ :=
  (l.id, l.total_slots, l.predicted_percent)

theorem percentOf_fallback_a (d : String) :
    percentOf { id := 1, datetime := d, total_slots := 120,
                total_occupied := 43, total_empty := 77 } =
      round (((43 : ℚ) / 120) * 100) := by
  show round (((43 : ℕ) : ℚ) / ((120 : ℕ) : ℚ) * 100) = round (((43 : ℚ) / 120) * 100)
  norm_num

theorem percentOf_fallback_b (d : String) :
    percentOf { id := 2, datetime := d, total_slots := 30,
                total_occupied := 13, total_empty := 17 } =
      round (((13 : ℚ) / 30) * 100) := by
  show round (((13 : ℕ) : ℚ) / ((30 : ℕ) : ℚ) * 100) = round (((13 : ℚ) / 30) * 100)
  norm_num

/-- C10: applying the fixed fallback sample set to freshly seeded lots
changes no displayed aggregate: every lot keeps its id, `total_slots`
and `predicted_percent` (the seed occupancies 43/120 and 13/30 coincide
with the fallback samples), and those first-paint figures are 120/36%
for Park A and 30/43% for Park B. -/
theorem fallback_refresh_preserves_first_paint (dist : ℚ → ℚ → ℚ → ℚ → ℤ)
    (shuffle sh2 : List ℕ → List ℕ) (lat lng : ℚ) (d : String) :
    (applyPredictionsList sh2 (fallbackSamples d)
        (seedLots dist shuffle lat lng)).map lotFigures =
      (seedLots dist shuffle lat lng).map lotFigures ∧
    (∀ L ∈ seedLots dist shuffle lat lng,
      (L.id = "1" → L.total_slots = 120 ∧ L.predicted_percent = 36) ∧
      (L.id = "2" → L.total_slots = 30 ∧ L.predicted_percent = 43)) := by
  constructor
  · unfold applyPredictionsList
    rw [List.map_map]
    refine List.map_congr_left ?_
    intro L hL
    rcases mem_seedLots dist shuffle lat lng L hL with h | h <;> subst h
    · have hl : lookupSample (fallbackSamples d)
          { id := "1", name := "Park A",
            lat := lat + 15/10000, lng := lng - 1/1000,
            distance_m := dist lat lng (lat + 15/10000) (lng - 1/1000),
            predicted_percent := round (((43 : ℚ) / 120) * 100),
            total_slots := 120,
            slots := truncateVisual (shuffle (baseSlots 120 43)),
            type := "surface" } =
          some { id := 1, datetime := d, total_slots := 120,
                 total_occupied := 43, total_empty := 77 } := rfl
      show lotFigures (updateLot sh2 (fallbackSamples d) _) = _
      unfold updateLot
      rw [hl]
      unfold lotFigures
      simp [percentOf_fallback_a d]
    · have hl : lookupSample (fallbackSamples d)
          { id := "2", name := "Park B",
            lat := lat - 1/1000, lng := lng + 2/1000,
            distance_m := dist lat lng (lat - 1/1000) (lng + 2/1000),
            predicted_percent := round (((13 : ℚ) / 30) * 100),
            total_slots := 30,
            slots := truncateVisual (shuffle (baseSlots 30 13)),
            type := "multistory" } =
          some { id := 2, datetime := d, total_slots := 30,
                 total_occupied := 13, total_empty := 17 } := rfl
      show lotFigures (updateLot sh2 (fallbackSamples d) _) = _
      unfold updateLot
      rw [hl]
      unfold lotFigures
      simp [percentOf_fallback_b d]
  · intro L hL
    rcases mem_seedLots dist shuffle lat lng L hL with h | h <;> subst h
    · refine ⟨fun _ => ⟨rfl, ?_⟩, fun hid => by simp at hid⟩
      exact percent_43_120
    · refine ⟨fun hid => by simp at hid, fun _ => ⟨rfl, ?_⟩⟩
      exact percent_13_30

/-- The seeded Park A record for the concrete C10 witness inputs
(zero distance function, identity shuffle, Nizami Street coordinates). -/
def seedParkA : ParkingLot :=
  { id := "1", name := "Park A",
    lat := 40375/1000 + 15/10000, lng := 49836/1000 - 1/1000,
    distance_m := 0,
    predicted_percent := round (((43 : ℚ) / 120) * 100),
    total_slots := 120,
    slots := truncateVisual (id (baseSlots 120 43)),
    type := "surface" }

/-- The seeded Park B record for the concrete C10 witness inputs. -/
def seedParkB : ParkingLot :=
  { id := "2", name := "Park B",
    lat := 40375/1000 - 1/1000, lng := 49836/1000 + 2/1000,
    distance_m := 0,
    predicted_percent := round (((13 : ℚ) / 30) * 100),
    total_slots := 30,
    slots := truncateVisual (id (baseSlots 30 13)),
    type := "multistory" }

/-- Witness for C10: at the Nizami Street coordinates the seeded Park A
record indeed shows 120 slots at 36 percent. -/
theorem fallback_refresh_preserves_first_paint_witness :
    seedParkA.total_slots = 120 ∧ seedParkA.predicted_percent = 36 := by
  have heq : seedLots (fun _ _ _ _ => 0) id (40375/1000) (49836/1000) =
      [seedParkA, seedParkB] := rfl
  have h := (fallback_refresh_preserves_first_paint (fun _ _ _ _ => 0) id id
    (40375/1000) (49836/1000) "2026-03-15 14:30").2 seedParkA
    (by rw [heq]; exact List.mem_cons_self _ _)
  exact h.1 rfl

/-! ### C3 — the distance function is not symmetric (code bug)

The source comment announces the haversine formula, whose middle term is
`cos φ1 * cos φ2`, but the code computes `cos φ1 * cos φ1` (it even
defines `φ2` and never uses it).  The result is asymmetric whenever the
two latitudes differ and the longitudes differ. -/

/-- The `a` intermediate of `getDistanceMeters`, as the code computes it
(with the `cos φ1 * cos φ1` slip). -/
noncomputable def havA (lat1 lon1 lat2 lon2 : ℝ) : ℝ :=
  Real.sin ((lat2 - lat1) * Real.pi / 180 / 2) * Real.sin ((lat2 - lat1) * Real.pi / 180 / 2) +
    Real.cos (lat1 * Real.pi / 180) * Real.cos (lat1 * Real.pi / 180) *
      Real.sin ((lon2 - lon1) * Real.pi / 180 / 2) * Real.sin ((lon2 - lon1) * Real.pi / 180 / 2)

theorem getDistanceMeters_eq (lat1 lon1 lat2 lon2 : ℝ) :
    getDistanceMeters lat1 lon1 lat2 lon2 =
      round ((6371000 : ℝ) *
        (2 * atan2 (Real.sqrt (havA lat1 lon1 lat2 lon2))
          (Real.sqrt (1 - havA lat1 lon1 lat2 lon2)))) := rfl

/-- At `(0,0) → (60,90)`: `a = sin²(30°) + cos²(0°)·sin²(45°) = 3/4`. -/
theorem havA_val1 : havA 0 0 60 90 = 3/4 := by
  have e1 : ((60:ℝ) - 0) * Real.pi / 180 / 2 = Real.pi / 6 := by ring
  have e2 : ((90:ℝ) - 0) * Real.pi / 180 / 2 = Real.pi / 4 := by ring
  have e3 : (0:ℝ) * Real.pi / 180 = 0 := by ring
  unfold havA
  rw [e1, e2, e3, Real.cos_zero, Real.sin_pi_div_six, Real.sin_pi_div_four]
  have hs2 : Real.sqrt 2 * Real.sqrt 2 = 2 := Real.mul_self_sqrt (by norm_num)
  nlinarith [hs2]

/-- At `(60,90) → (0,0)`: `a = sin²(30°) + cos²(60°)·sin²(45°) = 3/8` —
the swap changes the `cos²` factor because of the `cos φ1 * cos φ1` slip. -/
theorem havA_val2 : havA 60 90 0 0 = 3/8 := by
  have e1 : ((0:ℝ) - 60) * Real.pi / 180 / 2 = -(Real.pi / 6) := by ring
  have e2 : ((0:ℝ) - 90) * Real.pi / 180 / 2 = -(Real.pi / 4) := by ring
  have e3 : (60:ℝ) * Real.pi / 180 = Real.pi / 3 := by ring
  unfold havA
  rw [e1, e2, e3, Real.sin_neg, Real.sin_neg, Real.cos_pi_div_three,
    Real.sin_pi_div_six, Real.sin_pi_div_four]
  have hs2 : Real.sqrt 2 * Real.sqrt 2 = 2 := Real.mul_self_sqrt (by norm_num)
  nlinarith [hs2]

theorem atan2_of_a1 : atan2 (Real.sqrt (3/4)) (Real.sqrt (1 - 3/4)) = Real.pi / 3 := by
  have h14 : Real.sqrt ((1:ℝ) - 3/4) = 1/2 := by
    rw [show (1:ℝ) - 3/4 = (1/2)^2 by norm_num,
      Real.sqrt_sq (by norm_num : (0:ℝ) ≤ 1/2)]
  have h34 : Real.sqrt ((3:ℝ)/4) = Real.sqrt 3 / 2 := by
    rw [show ((3:ℝ)/4) = 3 / 2^2 by norm_num,
      Real.sqrt_div (by norm_num : (0:ℝ) ≤ 3), Real.sqrt_sq (by norm_num : (0:ℝ) ≤ 2)]
  rw [h14, h34]
  unfold atan2
  rw [if_pos (by norm_num : (0:ℝ) < 1/2)]
  rw [show Real.sqrt 3 / 2 / (1/2 : ℝ) = Real.sqrt 3 by ring]
  rw [← Real.tan_pi_div_three, Real.arctan_tan]
  · linarith [Real.pi_pos]
  · linarith [Real.pi_pos]

theorem atan2_of_a2_bounds :
    0 ≤ atan2 (Real.sqrt (3/8)) (Real.sqrt (1 - 3/8)) ∧
    atan2 (Real.sqrt (3/8)) (Real.sqrt (1 - 3/8)) < Real.pi / 4 := by
  have h58 : (0:ℝ) < Real.sqrt ((1:ℝ) - 3/8) := Real.sqrt_pos.mpr (by norm_num)
  unfold atan2
  rw [if_pos h58]
  constructor
  · rw [← Real.arctan_zero]
    exact Real.arctan_strictMono.monotone
      (div_nonneg (Real.sqrt_nonneg _) (le_of_lt h58))
  · have harg : Real.sqrt ((3:ℝ)/8) / Real.sqrt ((1:ℝ) - 3/8) < 1 := by
      rw [div_lt_one h58]
      exact Real.sqrt_lt_sqrt (by norm_num) (by norm_num)
    calc Real.arctan (Real.sqrt ((3:ℝ)/8) / Real.sqrt ((1:ℝ) - 3/8))
        < Real.arctan 1 := Real.arctan_strictMono harg
      _ = Real.pi / 4 := Real.arctan_one

theorem round_swapped_lt :
    round ((6371000:ℝ) * (2 * atan2 (Real.sqrt (3/8)) (Real.sqrt (1 - 3/8)))) <
    round ((6371000:ℝ) * (2 * (Real.pi / 3))) := by
  obtain ⟨ht0, ht⟩ := atan2_of_a2_bounds
  have hb1 := abs_sub_round ((6371000:ℝ) * (2 * (Real.pi / 3)))
  have hb2 := abs_sub_round
    ((6371000:ℝ) * (2 * atan2 (Real.sqrt (3/8)) (Real.sqrt (1 - 3/8))))
  rw [abs_le] at hb1 hb2
  have hpi := Real.pi_gt_d2
  have hcast :
      ((round ((6371000:ℝ) *
          (2 * atan2 (Real.sqrt (3/8)) (Real.sqrt (1 - 3/8)))) : ℤ) : ℝ) <
      ((round ((6371000:ℝ) * (2 * (Real.pi / 3))) : ℤ) : ℝ) := by
    obtain ⟨hb1l, hb1r⟩ := hb1
    obtain ⟨hb2l, hb2r⟩ := hb2
    nlinarith
  exact_mod_cast hcast

/-- C3 (code bug): the distance function is not symmetric.  Swapping the
endpoints `(0,0)` and `(60,90)` changes the result (≈13,342 km one way,
≈8,400 km the other), because the code multiplies `cos φ1` by itself
where the haversine formula it claims to implement needs
`cos φ1 * cos φ2`. -/
theorem distance_symmetry_broken :
    getDistanceMeters 0 0 60 90 ≠ getDistanceMeters 60 90 0 0 := by
  have e1 : getDistanceMeters 0 0 60 90 =
      round ((6371000:ℝ) * (2 * atan2 (Real.sqrt (3/4)) (Real.sqrt (1 - 3/4)))) := by
    rw [getDistanceMeters_eq, havA_val1]
  have e2 : getDistanceMeters 60 90 0 0 =
      round ((6371000:ℝ) * (2 * atan2 (Real.sqrt (3/8)) (Real.sqrt (1 - 3/8)))) := by
    rw [getDistanceMeters_eq, havA_val2]
  rw [e1, e2, atan2_of_a1]
  exact ne_of_gt round_swapped_lt

end YerTap
